import Mathlib

/-!
Shallow embedding of `src/school.js` from node-school-kr (version 2.2.2).

The source is a single JavaScript class `School` holding a school identity
(education type, regional office, school code) and building portal URLs for
meal and calendar queries.  JavaScript values that the code can actually
distinguish are modelled by `JSVal`: the code branches on
`typeof x === 'object'`, on truthiness (`x && y`, `x || y`), on strict
comparison with `undefined`, on numeric comparison (`month < 1`), and on
string conversion (template literals, `toString`).  Options objects are only
ever read at the fields `year`, `yaer`, `month` and `default`, so a JS object
is modelled by those four fields (a missing field reads as `undefined`,
exactly as in JavaScript).
-/

/-- Decidable equality of `Except` outcomes, so that concrete runs of the
embedded functions can be settled by `decide`. -/
instance {ε α : Type} [DecidableEq ε] [DecidableEq α] : DecidableEq (Except ε α) := fun x y =>
  match x, y with
  | .ok a, .ok b =>
    if h : a = b then .isTrue (by rw [h]) else .isFalse (by simp [h])
  | .error a, .error b =>
    if h : a = b then .isTrue (by rw [h]) else .isFalse (by simp [h])
  | .ok _, .error _ => .isFalse (by simp)
  | .error _, .ok _ => .isFalse (by simp)

/-- A JavaScript value as far as `school.js` can observe it.  `obj` carries
the four fields the code ever reads from an options object: `year`, `yaer`
(the misspelled field read by `getCalendar`), `month` and `default`. -/
inductive JSVal where
  | undef : JSVal
  | bool : Bool → JSVal
  | num : Int → JSVal
  | str : String → JSVal
  | obj : JSVal → JSVal → JSVal → JSVal → JSVal
deriving DecidableEq

/-- JavaScript truthiness of a `JSVal` (`undefined`, `0`, `""`, `false` are
falsy; every object is truthy). -/
def jsTruthy : JSVal → Bool
  | .undef => false
  | .bool b => b
  | .num n => decide (n ≠ 0)
  | .str s => decide (s ≠ "")
  | .obj _ _ _ _ => true

/-- JavaScript `String(v)` / `v.toString()` on the modelled values. -/
def jsToString : JSVal → String
  | .undef => "undefined"
  | .bool b => if b then "true" else "false"
  | .num n => toString n
  | .str s => s
  | .obj _ _ _ _ => "[object Object]"

/-- JavaScript `a || b`: `b` when `a` is falsy, `a` otherwise. -/
def jsOr (a b : JSVal) : JSVal := if jsTruthy a then a else b

/-- JavaScript `ToNumber` coercion restricted to the modelled values, with
`none` standing for `NaN` (integer-valued inputs only; the repository never
supplies fractional numbers). The empty / blank string coerces to `0`. -/
def jsToNumber : JSVal → Option Int
  | .undef => none
  | .bool b => some (if b then 1 else 0)
  | .num n => some n
  | .str s => if s.trim = "" then some 0 else s.trim.toInt?
  | .obj _ _ _ _ => none

/-- JavaScript `v < k` for an integer literal `k` (`false` when `v` coerces
to `NaN`, as in JS). -/
def jsLtInt (v : JSVal) (k : Int) : Bool :=
  match jsToNumber v with
  | none => false
  | some n => decide (n < k)

/-- JavaScript `v > k` for an integer literal `k` (`false` when `v` coerces
to `NaN`, as in JS). -/
def jsGtInt (v : JSVal) (k : Int) : Bool :=
  match jsToNumber v with
  | none => false
  | some n => decide (n > k)

/-- ASCII model of `String.prototype.toLowerCase` (every kind string the
repository uses is ASCII). -/
def jsToLowerCase (s : String) : String := String.mk (s.data.map Char.toLower)

/-- Modelled from the spec: `data/data.js` is required by `school.js` but is
not under `src/`.  Per the spec the institution-type catalog is a fixed map
from {kindergarten-attached, elementary, middle, high} to non-empty portal
codes. -/
def DATA.EDUTYPE : List (String × String) :=
  [("kindergarten", "1"), ("elementary", "2"), ("middle", "3"), ("high", "4")]

/-- Modelled from the spec: the fixed catalog of regional education-office
hosts from `data/data.js` (absent from `src/`), mapping region keys to
non-empty host fragments. -/
def DATA.REGION : List (String × String) :=
  [("seoul", "stu.sen.go.kr"), ("busan", "stu.pen.go.kr"),
   ("incheon", "stu.ice.go.kr"), ("gyeonggi", "stu.goe.go.kr")]

/-- Modelled from the spec: the process-wide meal portal path constant
`DATA.mealUrl` from `data/data.js` (absent from `src/`). -/
def DATA.mealUrl : String := "sts_sci_md00_001.do"

/-- Modelled from the spec: the process-wide calendar portal path constant
`DATA.calendarUrl` from `data/data.js` (absent from `src/`). -/
def DATA.calendarUrl : String := "sts_sci_sf01_001.do"

/-- JavaScript property lookup `table[key]` on a catalog object: a hit gives
the stored string, anything else gives `undefined`. -/
def jsLookup (tbl : List (String × String)) (key : JSVal) : JSVal :=
  match key with
  | .str s =>
    match tbl.find? (fun p => p.1 == s) with
    | some p => .str p.2
    | none => JSVal.undef
  | _ => JSVal.undef

/-- The observable fields of a `School` instance.  JavaScript fields that
were never assigned read as `undefined`; the collaborator fields `_DATA`,
`_meal` and `_calendar` hold opaque objects, so only their assignment is
recorded. -/
structure SchoolObj where
  fieldDATA : Bool
  fieldMealUrl : JSVal
  fieldCalendarUrl : JSVal
  fieldMeal : Bool
  fieldCalendar : Bool
  fieldEduType : JSVal
  fieldRegion : JSVal
  fieldSchoolCode : JSVal
  fieldInited : JSVal
deriving DecidableEq

/-- A freshly allocated instance before the constructor body runs: no field
assigned yet. -/
def blankSchool : SchoolObj :=
  { fieldDATA := false
    fieldMealUrl := .undef
    fieldCalendarUrl := .undef
    fieldMeal := false
    fieldCalendar := false
    fieldEduType := .undef
    fieldRegion := .undef
    fieldSchoolCode := .undef
    fieldInited := .undef }

/-- Errors thrown by `school.js`, one per distinct `throw new Error(...)`
message. -/
inductive JSError where
  | alreadyInitedErr
  | configurationError
  | incompleteDate
  | monthRange
  | notInitedErr
  | unknownKind
deriving DecidableEq

/-- The constructor of `School` (`school.js` lines 43-62), run on a fresh
instance.  It returns the instance state as left behind together with the
outcome, so that partially assigned state at a `throw` stays observable:
the five data/collaborator fields are assigned first, then the guard chain
runs (`_initialized` re-init check, then the truthiness check on
`type && region && schoolCode`). -/
def School.constructorRun (type region schoolCode : JSVal) : SchoolObj × Except JSError Unit :=
  let st1 : SchoolObj :=
    { blankSchool with
      fieldDATA := true
      fieldMealUrl := .str DATA.mealUrl
      fieldCalendarUrl := .str DATA.calendarUrl
      fieldMeal := true
      fieldCalendar := true }
  if jsTruthy st1.fieldInited then
    (st1, .error .alreadyInitedErr)
  else if jsTruthy type ∧ jsTruthy region ∧ jsTruthy schoolCode then
    ({ st1 with
       fieldEduType := jsLookup DATA.EDUTYPE type
       fieldRegion := jsLookup DATA.REGION region
       fieldSchoolCode := schoolCode
       fieldInited := .bool true }, .ok ())
  else
    (st1, .error .configurationError)

/-- `School.prototype.monthFormat` (`school.js` lines 69-84): convert to a
string; length > 2 gives `""`, empty or length-2 strings pass through,
anything else gets a single `"0"` prepended. -/
def School.monthFormat (month : JSVal) : String :=
  let m := jsToString month
  if m.length > 2 then ""
  else if m = "" ∨ m.length = 2 then m
  else "0" ++ m

/-- The URL template of `school.js` lines 104-110 (the body of `createUrl`
once the kind path `typeUrl` is resolved). -/
def School.urlString (st : SchoolObj) (typeUrl : String) (year month : JSVal) : String :=
  "https://" ++ jsToString st.fieldRegion ++ "/" ++ typeUrl ++ "?" ++
  "schulCode=" ++ jsToString st.fieldSchoolCode ++ "&" ++
  "schulCrseScCode=" ++ jsToString st.fieldEduType ++ "&" ++
  "schulKndScCode=0" ++ jsToString st.fieldEduType ++ "&" ++
  "ay=" ++ jsToString (jsOr year (.str "")) ++ "&" ++
  "mm=" ++ School.monthFormat (jsOr month (.str "")) ++ "&"

/-- `School.prototype.createUrl` (`school.js` lines 91-114): requires the
instance to be initialized, lowercases the kind, resolves it to the meal or
calendar path, and builds the URL. -/
def School.createUrl (st : SchoolObj) (type : String) (year month : JSVal) : Except JSError String :=
  if jsTruthy st.fieldInited then
    let typeString := jsToLowerCase type
    if typeString = "meal" then
      .ok (School.urlString st (jsToString st.fieldMealUrl) year month)
    else if typeString = "calendar" then
      .ok (School.urlString st (jsToString st.fieldCalendarUrl) year month)
    else
      .error .unknownKind
  else
    .error .notInitedErr

/-- `School.prototype.getTargetURL` (`school.js` lines 123-133):
date-completeness check, then `createUrl`. -/
def School.getTargetURL (st : SchoolObj) (type : String) (year month : JSVal) : Except JSError String :=
  if ¬ ((year ≠ JSVal.undef ∧ month ≠ JSVal.undef) ∨ (year = JSVal.undef ∧ month = JSVal.undef)) then
    .error .incompleteDate
  else
    School.createUrl st type year month

/-- The observable outcome of a successful query: which fetcher was invoked,
with which URL and which default value (`fetcher.getData(url, default)`). -/
structure FetchCall where
  fetcher : String
  url : String
  defaultValue : JSVal
deriving DecidableEq

/-- `School.prototype.getMeal` (`school.js` lines 141-171).  A first
argument of JS type `object` is taken as the options object (reading its
`year` and `month` fields, skipping the completeness check); otherwise the
two positional arguments are the date, checked for completeness.  Then the
month range check, the initialization check, and delegation to the meal
fetcher with `option.default || ''`. -/
def School.getMeal (st : SchoolObj) (year month : JSVal) : Except JSError FetchCall :=
  match year with
  | .obj oy _ om od =>
    if jsLtInt om 1 ∨ jsGtInt om 12 then .error .monthRange
    else if jsTruthy st.fieldInited then
      (School.createUrl st "meal" oy om).map (fun u => ⟨"meal", u, jsOr od (.str "")⟩)
    else .error .notInitedErr
  | _ =>
    if ¬ ((year ≠ JSVal.undef ∧ month ≠ JSVal.undef) ∨ (year = JSVal.undef ∧ month = JSVal.undef)) then
      .error .incompleteDate
    else if jsLtInt month 1 ∨ jsGtInt month 12 then .error .monthRange
    else if jsTruthy st.fieldInited then
      (School.createUrl st "meal" year month).map (fun u => ⟨"meal", u, .str ""⟩)
    else .error .notInitedErr

/-- `School.prototype.getCalendar` (`school.js` lines 179-209).  Identical
to `getMeal` except that it resolves the calendar path and — as written in
the source — reads the misspelled options field `option.yaer` for the year. -/
def School.getCalendar (st : SchoolObj) (year month : JSVal) : Except JSError FetchCall :=
  match year with
  | .obj _ oya om od =>
    if jsLtInt om 1 ∨ jsGtInt om 12 then .error .monthRange
    else if jsTruthy st.fieldInited then
      (School.createUrl st "calendar" oya om).map (fun u => ⟨"calendar", u, jsOr od (.str "")⟩)
    else .error .notInitedErr
  | _ =>
    if ¬ ((year ≠ JSVal.undef ∧ month ≠ JSVal.undef) ∨ (year = JSVal.undef ∧ month = JSVal.undef)) then
      .error .incompleteDate
    else if jsLtInt month 1 ∨ jsGtInt month 12 then .error .monthRange
    else if jsTruthy st.fieldInited then
      (School.createUrl st "calendar" year month).map (fun u => ⟨"calendar", u, .str ""⟩)
    else .error .notInitedErr

/-- A concrete finalized identity used by the concrete theorems: a high
school in the Seoul region with school code `X100000475`. -/
def demoSchool : SchoolObj :=
  (School.constructorRun (.str "high") (.str "seoul") (.str "X100000475")).1

/-- Whether a `JSVal` has JavaScript type `object` (what
`typeof year === 'object'` tests in the modelled fragment). -/
def isObj : JSVal → Bool
  | .obj _ _ _ _ => true
  | _ => false

/-- Whether an `Except` outcome is a success. -/
def isOkE {α : Type} : Except JSError α → Bool
  | .ok _ => true
  | .error _ => false

lemma jsToString_str (s : String) : jsToString (.str s) = s := rfl

lemma jsToString_jsOr_empty (v : JSVal) :
    jsToString (jsOr v (.str "")) = if jsTruthy v then jsToString v else "" := by
  cases hv : jsTruthy v <;> simp [jsOr, hv, jsToString]

lemma monthFormat_jsOr_empty (v : JSVal) :
    School.monthFormat (jsOr v (.str "")) =
      if jsTruthy v then School.monthFormat v else "" := by
  cases hv : jsTruthy v
  · simp [jsOr, hv]
    decide
  · simp [jsOr, hv]

lemma createUrl_meal_ok (st : SchoolObj) (hinit : jsTruthy st.fieldInited = true)
    (y m : JSVal) :
    School.createUrl st "meal" y m =
      .ok (School.urlString st (jsToString st.fieldMealUrl) y m) := by
  have hml : jsToLowerCase "meal" = "meal" := by decide
  simp [School.createUrl, hinit, hml]

lemma createUrl_calendar_ok (st : SchoolObj) (hinit : jsTruthy st.fieldInited = true)
    (y m : JSVal) :
    School.createUrl st "calendar" y m =
      .ok (School.urlString st (jsToString st.fieldCalendarUrl) y m) := by
  have hcl : jsToLowerCase "calendar" = "calendar" := by decide
  have hne : jsToLowerCase "calendar" ≠ "meal" := by decide
  simp [School.createUrl, hinit, hcl, hne]

/-- Reduction of `getMeal` on a first argument that is not a JS object: the
positional branch of the source runs. -/
lemma getMeal_positional (st : SchoolObj) (y m : JSVal) (hnotobj : isObj y = false) :
    School.getMeal st y m =
      (if ¬ ((y ≠ JSVal.undef ∧ m ≠ JSVal.undef) ∨ (y = JSVal.undef ∧ m = JSVal.undef)) then
        .error .incompleteDate
      else if jsLtInt m 1 ∨ jsGtInt m 12 then .error .monthRange
      else if jsTruthy st.fieldInited then
        (School.createUrl st "meal" y m).map (fun u => ⟨"meal", u, .str ""⟩)
      else .error .notInitedErr) := by
  cases y <;> first | rfl | simp [isObj] at hnotobj

/-- Reduction of `getCalendar` on a first argument that is not a JS object:
the positional branch of the source runs. -/
lemma getCalendar_positional (st : SchoolObj) (y m : JSVal) (hnotobj : isObj y = false) :
    School.getCalendar st y m =
      (if ¬ ((y ≠ JSVal.undef ∧ m ≠ JSVal.undef) ∨ (y = JSVal.undef ∧ m = JSVal.undef)) then
        .error .incompleteDate
      else if jsLtInt m 1 ∨ jsGtInt m 12 then .error .monthRange
      else if jsTruthy st.fieldInited then
        (School.createUrl st "calendar" y m).map (fun u => ⟨"calendar", u, .str ""⟩)
      else .error .notInitedErr) := by
  cases y <;> first | rfl | simp [isObj] at hnotobj

/-- C7: `monthFormat` converts its input to a string and returns `""` when
the string is longer than 2 characters, the string itself when it is empty
or exactly 2 characters, and otherwise the string with a single `"0"`
prepended; in particular `monthFormat(5) = "05"`, `monthFormat(12) = "12"`,
`monthFormat("") = ""` and `monthFormat(123) = ""`, and the function is a
pure total function of the (stringified) input. -/
theorem C7_monthFormat_spec :
    (∀ v : JSVal,
      School.monthFormat v =
        (if (jsToString v).length > 2 then ""
         else if jsToString v = "" ∨ (jsToString v).length = 2 then jsToString v
         else "0" ++ jsToString v)) ∧
    School.monthFormat (.num 5) = "05" ∧
    School.monthFormat (.num 12) = "12" ∧
    School.monthFormat (.str "") = "" ∧
    School.monthFormat (.num 123) = "" :=
  ⟨fun _ => rfl, by decide, by decide, by decide, by decide⟩

/-- C5 (counterexample): the year slot of the URL is not always the
caller-supplied value — the supplied year `0` is truthiness-erased by
`year || ''`, so `createUrl` emits `ay=` although `String(0) = "0"` and the
year was supplied, contradicting "empty string only when year is absent". -/
theorem C5_counterexample :
    School.createUrl demoSchool "meal" (.num 0) (.num 5) =
      .ok "https://stu.sen.go.kr/sts_sci_md00_001.do?schulCode=X100000475&schulCrseScCode=4&schulKndScCode=04&ay=&mm=05&" ∧
    School.createUrl demoSchool "meal" (.num 0) (.num 5) ≠
      .ok "https://stu.sen.go.kr/sts_sci_md00_001.do?schulCode=X100000475&schulCrseScCode=4&schulKndScCode=04&ay=0&mm=05&" ∧
    jsToString (.num 0) = "0" := by
  refine ⟨by decide, by decide, by decide⟩

/-- C5 (amended): for a finalized identity with resolved type `T`, region
host `R`, school code `C` and the fixed portal paths, `createUrl` returns
exactly the claimed string, except that the `ay` slot holds the
caller-supplied year only when that year is truthy (absent or falsy years
— e.g. `0` — give the empty string), and likewise the `mm` slot holds
`monthFormat(month)` only when the month is truthy. -/
theorem C5_url_shape (st : SchoolObj) (T R C : String)
    (hT : st.fieldEduType = .str T) (hR : st.fieldRegion = .str R)
    (hC : st.fieldSchoolCode = .str C)
    (hMu : st.fieldMealUrl = .str DATA.mealUrl)
    (hCu : st.fieldCalendarUrl = .str DATA.calendarUrl)
    (hinit : jsTruthy st.fieldInited = true) (y m : JSVal) :
    School.createUrl st "meal" y m =
      .ok ("https://" ++ R ++ "/" ++ DATA.mealUrl ++ "?" ++
        "schulCode=" ++ C ++ "&" ++
        "schulCrseScCode=" ++ T ++ "&" ++
        "schulKndScCode=0" ++ T ++ "&" ++
        "ay=" ++ (if jsTruthy y then jsToString y else "") ++ "&" ++
        "mm=" ++ (if jsTruthy m then School.monthFormat m else "") ++ "&") ∧
    School.createUrl st "calendar" y m =
      .ok ("https://" ++ R ++ "/" ++ DATA.calendarUrl ++ "?" ++
        "schulCode=" ++ C ++ "&" ++
        "schulCrseScCode=" ++ T ++ "&" ++
        "schulKndScCode=0" ++ T ++ "&" ++
        "ay=" ++ (if jsTruthy y then jsToString y else "") ++ "&" ++
        "mm=" ++ (if jsTruthy m then School.monthFormat m else "") ++ "&") := by
  constructor
  · rw [createUrl_meal_ok st hinit y m, hMu]
    simp only [School.urlString, hT, hR, hC, jsToString_str,
      jsToString_jsOr_empty, monthFormat_jsOr_empty]
  · rw [createUrl_calendar_ok st hinit y m, hCu]
    simp only [School.urlString, hT, hR, hC, jsToString_str,
      jsToString_jsOr_empty, monthFormat_jsOr_empty]

/-- C5 (witness): the amended URL-shape theorem applies to the concrete
finalized demo identity with year 2024 and month 5. -/
theorem C5_witness :
    (demoSchool.fieldEduType = .str "4" ∧ demoSchool.fieldRegion = .str "stu.sen.go.kr" ∧
     demoSchool.fieldSchoolCode = .str "X100000475" ∧
     demoSchool.fieldMealUrl = .str DATA.mealUrl ∧
     demoSchool.fieldCalendarUrl = .str DATA.calendarUrl ∧
     jsTruthy demoSchool.fieldInited = true) ∧
    (School.createUrl demoSchool "meal" (.num 2024) (.num 5) =
      .ok ("https://" ++ "stu.sen.go.kr" ++ "/" ++ DATA.mealUrl ++ "?" ++
        "schulCode=" ++ "X100000475" ++ "&" ++
        "schulCrseScCode=" ++ "4" ++ "&" ++
        "schulKndScCode=0" ++ "4" ++ "&" ++
        "ay=" ++ (if jsTruthy (.num 2024) then jsToString (.num 2024) else "") ++ "&" ++
        "mm=" ++ (if jsTruthy (.num 5) then School.monthFormat (.num 5) else "") ++ "&") ∧
     School.createUrl demoSchool "calendar" (.num 2024) (.num 5) =
      .ok ("https://" ++ "stu.sen.go.kr" ++ "/" ++ DATA.calendarUrl ++ "?" ++
        "schulCode=" ++ "X100000475" ++ "&" ++
        "schulCrseScCode=" ++ "4" ++ "&" ++
        "schulKndScCode=0" ++ "4" ++ "&" ++
        "ay=" ++ (if jsTruthy (.num 2024) then jsToString (.num 2024) else "") ++ "&" ++
        "mm=" ++ (if jsTruthy (.num 5) then School.monthFormat (.num 5) else "") ++ "&")) :=
  ⟨⟨by decide, by decide, by decide, by decide, by decide, by decide⟩,
   C5_url_shape demoSchool "4" "stu.sen.go.kr" "X100000475" (by decide) (by decide)
     (by decide) (by decide) (by decide) (by decide) (.num 2024) (.num 5)⟩

/-- C8: `createUrl` resolves its kind case-insensitively — `"MEAL"` and
`"CALENDAR"` build the same URLs as `"meal"` and `"calendar"` — and every
kind whose lowercase form is neither `"meal"` nor `"calendar"` fails with
the unknown-kind error (on a finalized identity). -/
theorem C8_kind_case_insensitive (st : SchoolObj)
    (hinit : jsTruthy st.fieldInited = true) (kind : String) (y m : JSVal)
    (h1 : jsToLowerCase kind ≠ "meal") (h2 : jsToLowerCase kind ≠ "calendar") :
    School.createUrl st "MEAL" y m = School.createUrl st "meal" y m ∧
    School.createUrl st "CALENDAR" y m = School.createUrl st "calendar" y m ∧
    School.createUrl st kind y m = .error .unknownKind := by
  have hm1 : jsToLowerCase "MEAL" = "meal" := by decide
  have hc1 : jsToLowerCase "CALENDAR" = "calendar" := by decide
  have hm2 : jsToLowerCase "meal" = "meal" := by decide
  have hc2 : jsToLowerCase "calendar" = "calendar" := by decide
  have hcm : jsToLowerCase "calendar" ≠ "meal" := by decide
  refine ⟨?_, ?_, ?_⟩
  · simp [School.createUrl, hinit, hm1, hm2]
  · simp [School.createUrl, hinit, hc1, hc2, hcm]
  · simp [School.createUrl, hinit, h1, h2]

/-- C8 (witness): the case-insensitivity theorem applies to the concrete
finalized demo identity, with `"lunch"` as a concrete unknown kind. -/
theorem C8_witness :
    (jsTruthy demoSchool.fieldInited = true ∧
     jsToLowerCase "lunch" ≠ "meal" ∧ jsToLowerCase "lunch" ≠ "calendar") ∧
    (School.createUrl demoSchool "MEAL" (.num 2024) (.num 5) =
       School.createUrl demoSchool "meal" (.num 2024) (.num 5) ∧
     School.createUrl demoSchool "CALENDAR" (.num 2024) (.num 5) =
       School.createUrl demoSchool "calendar" (.num 2024) (.num 5) ∧
     School.createUrl demoSchool "lunch" (.num 2024) (.num 5) = .error .unknownKind) :=
  ⟨⟨by decide, by decide, by decide⟩,
   C8_kind_case_insensitive demoSchool (by decide) "lunch" (.num 2024) (.num 5)
     (by decide) (by decide)⟩

/-- Reduction of the constructor run to a single decision on the truthiness
of its three arguments (the re-init guard never fires on a fresh
instance, since the unassigned `_initialized` field is falsy). -/
lemma constructorRun_def (t r c : JSVal) :
    School.constructorRun t r c =
      if jsTruthy t ∧ jsTruthy r ∧ jsTruthy c then
        ({ fieldDATA := true
           fieldMealUrl := .str DATA.mealUrl
           fieldCalendarUrl := .str DATA.calendarUrl
           fieldMeal := true
           fieldCalendar := true
           fieldEduType := jsLookup DATA.EDUTYPE t
           fieldRegion := jsLookup DATA.REGION r
           fieldSchoolCode := c
           fieldInited := .bool true }, .ok ())
      else
        ({ fieldDATA := true
           fieldMealUrl := .str DATA.mealUrl
           fieldCalendarUrl := .str DATA.calendarUrl
           fieldMeal := true
           fieldCalendar := true
           fieldEduType := .undef
           fieldRegion := .undef
           fieldSchoolCode := .undef
           fieldInited := .undef }, .error .configurationError) := rfl

/-- Reduction of `getMeal` on an options object: the source reads
`option.year` and `option.month` and skips the completeness check. -/
lemma getMeal_options (st : SchoolObj) (a b c d m2 : JSVal) :
    School.getMeal st (.obj a b c d) m2 =
      (if jsLtInt c 1 ∨ jsGtInt c 12 then .error .monthRange
      else if jsTruthy st.fieldInited then
        (School.createUrl st "meal" a c).map (fun u => ⟨"meal", u, jsOr d (.str "")⟩)
      else .error .notInitedErr) := rfl

/-- Reduction of `getCalendar` on an options object: the source reads the
misspelled `option.yaer` (second field) and `option.month`, skipping the
completeness check. -/
lemma getCalendar_options (st : SchoolObj) (a b c d m2 : JSVal) :
    School.getCalendar st (.obj a b c d) m2 =
      (if jsLtInt c 1 ∨ jsGtInt c 12 then .error .monthRange
      else if jsTruthy st.fieldInited then
        (School.createUrl st "calendar" b c).map (fun u => ⟨"calendar", u, jsOr d (.str "")⟩)
      else .error .notInitedErr) := rfl

/-- C1: on the source as written, an options-object call to `getCalendar`
does *not* resolve the year from the object's `year` field: the code reads
the misspelled `option.yaer`, so `getCalendar({year: 2024, month: 5})`
builds its URL with an empty `ay` slot, while the same options object given
to `getMeal` yields `ay=2024` (the behavior the claim, and the spec's
intent, demand for both). -/
theorem C1_yaer_typo_eval :
    School.getCalendar demoSchool (.obj (.num 2024) .undef (.num 5) .undef) .undef =
      .ok ⟨"calendar", "https://stu.sen.go.kr/sts_sci_sf01_001.do?schulCode=X100000475&schulCrseScCode=4&schulKndScCode=04&ay=&mm=05&", .str ""⟩ ∧
    School.getMeal demoSchool (.obj (.num 2024) .undef (.num 5) .undef) .undef =
      .ok ⟨"meal", "https://stu.sen.go.kr/sts_sci_md00_001.do?schulCode=X100000475&schulCrseScCode=4&schulKndScCode=04&ay=2024&mm=05&", .str ""⟩ :=
  ⟨by decide, by decide⟩

/-- C2 (counterexample): an options-object call with `year` present and
`month` absent does not fail with the incomplete-date error — it succeeds,
because the completeness check sits in the `else if` of the positional
branch and is skipped for options objects. -/
theorem C2_counterexample :
    School.getMeal demoSchool (.obj (.num 2024) .undef .undef .undef) .undef =
      .ok ⟨"meal", "https://stu.sen.go.kr/sts_sci_md00_001.do?schulCode=X100000475&schulCrseScCode=4&schulKndScCode=04&ay=2024&mm=&", .str ""⟩ ∧
    School.getMeal demoSchool (.obj (.num 2024) .undef .undef .undef) .undef ≠
      .error .incompleteDate :=
  ⟨by decide, by decide⟩

/-- C2 (amended): the incomplete-date validation applies only to positional
calls — a positional call with exactly one of year/month specified fails
with the incomplete-date error in `getMeal`, `getCalendar` and
`getTargetURL`, whereas an options-object call is never subject to the
completeness check (it can never produce the incomplete-date error). -/
theorem C2_amended (st : SchoolObj) (y m : JSVal) (hnotobj : isObj y = false)
    (honly : (y ≠ JSVal.undef ∧ m = JSVal.undef) ∨ (y = JSVal.undef ∧ m ≠ JSVal.undef))
    (kind : String) (a b c d m2 : JSVal) :
    School.getMeal st y m = .error .incompleteDate ∧
    School.getCalendar st y m = .error .incompleteDate ∧
    School.getTargetURL st kind y m = .error .incompleteDate ∧
    School.getMeal st (JSVal.obj a b c d) m2 ≠ .error .incompleteDate ∧
    School.getCalendar st (JSVal.obj a b c d) m2 ≠ .error .incompleteDate := by
  have hcond : ¬ ((y ≠ JSVal.undef ∧ m ≠ JSVal.undef) ∨ (y = JSVal.undef ∧ m = JSVal.undef)) := by
    rcases honly with ⟨hy, hm⟩ | ⟨hy, hm⟩ <;> simp [hy, hm]
  refine ⟨?_, ?_, ?_, ?_, ?_⟩
  · rw [getMeal_positional st y m hnotobj, if_pos hcond]
  · rw [getCalendar_positional st y m hnotobj, if_pos hcond]
  · simp only [School.getTargetURL]
    rw [if_pos hcond]
  · rw [getMeal_options st a b c d m2]
    by_cases h1 : (jsLtInt c 1 ∨ jsGtInt c 12)
    · rw [if_pos h1]
      simp
    · rw [if_neg h1]
      cases hi : jsTruthy st.fieldInited
      · simp [hi]
      · simp [hi, createUrl_meal_ok st hi a c, Except.map]
  · rw [getCalendar_options st a b c d m2]
    by_cases h1 : (jsLtInt c 1 ∨ jsGtInt c 12)
    · rw [if_pos h1]
      simp
    · rw [if_neg h1]
      cases hi : jsTruthy st.fieldInited
      · simp [hi]
      · simp [hi, createUrl_calendar_ok st hi b c, Except.map]

/-- C2 (witness): the amended completeness theorem applies to the concrete
finalized demo identity with the positional call `getMeal(2024)` and the
options call `getMeal({year: 2024})`. -/
theorem C2_witness :
    (isObj (JSVal.num 2024) = false ∧
     ((JSVal.num 2024 ≠ JSVal.undef ∧ JSVal.undef = JSVal.undef) ∨
      (JSVal.num 2024 = JSVal.undef ∧ JSVal.undef ≠ JSVal.undef))) ∧
    (School.getMeal demoSchool (.num 2024) .undef = .error .incompleteDate ∧
     School.getCalendar demoSchool (.num 2024) .undef = .error .incompleteDate ∧
     School.getTargetURL demoSchool "meal" (.num 2024) .undef = .error .incompleteDate ∧
     School.getMeal demoSchool (JSVal.obj (.num 2024) .undef .undef .undef) .undef ≠
       .error .incompleteDate ∧
     School.getCalendar demoSchool (JSVal.obj (.num 2024) .undef .undef .undef) .undef ≠
       .error .incompleteDate) :=
  ⟨⟨by decide, by decide⟩,
   C2_amended demoSchool (.num 2024) .undef (by decide) (by decide) "meal"
     (.num 2024) .undef .undef .undef .undef⟩

/-- C3 (counterexample): a non-empty institution type that resolves against
nothing in the catalog is *not* rejected — construction succeeds and stores
`undefined` as the education type. -/
theorem C3_counterexample :
    (School.constructorRun (.str "bogus") (.str "seoul") (.str "X100000475")).2 = .ok () ∧
    (School.constructorRun (.str "bogus") (.str "seoul") (.str "X100000475")).1.fieldEduType =
      .undef ∧
    jsLookup DATA.EDUTYPE (.str "bogus") = .undef :=
  ⟨by decide, by decide, by decide⟩

/-- C3 (amended): the constructor never consults the catalogs for
membership — whenever type, region and school code are all truthy it
succeeds, storing the raw lookup results (which are `undefined` precisely
when the value resolves to nothing) and marking the instance finalized; an
unresolvable value is accepted silently rather than raising a configuration
error. -/
theorem C3_unresolvable_accepted (t r c : JSVal)
    (ht : jsTruthy t = true) (hr : jsTruthy r = true) (hc : jsTruthy c = true) :
    (School.constructorRun t r c).2 = .ok () ∧
    (School.constructorRun t r c).1.fieldEduType = jsLookup DATA.EDUTYPE t ∧
    (School.constructorRun t r c).1.fieldRegion = jsLookup DATA.REGION r ∧
    (School.constructorRun t r c).1.fieldSchoolCode = c ∧
    jsTruthy (School.constructorRun t r c).1.fieldInited = true := by
  rw [constructorRun_def, if_pos ⟨ht, hr, hc⟩]
  exact ⟨rfl, rfl, rfl, rfl, rfl⟩

/-- C3 (witness): the amended constructor theorem applies to the concrete
unresolvable type `"bogus"` with a valid region and school code. -/
theorem C3_witness :
    (jsTruthy (JSVal.str "bogus") = true ∧ jsTruthy (JSVal.str "seoul") = true ∧
     jsTruthy (JSVal.str "X100000475") = true) ∧
    ((School.constructorRun (.str "bogus") (.str "seoul") (.str "X100000475")).2 = .ok () ∧
     (School.constructorRun (.str "bogus") (.str "seoul") (.str "X100000475")).1.fieldEduType =
       jsLookup DATA.EDUTYPE (.str "bogus") ∧
     (School.constructorRun (.str "bogus") (.str "seoul") (.str "X100000475")).1.fieldRegion =
       jsLookup DATA.REGION (.str "seoul") ∧
     (School.constructorRun (.str "bogus") (.str "seoul") (.str "X100000475")).1.fieldSchoolCode =
       .str "X100000475" ∧
     jsTruthy (School.constructorRun (.str "bogus") (.str "seoul") (.str "X100000475")).1.fieldInited =
       true) :=
  ⟨⟨by decide, by decide, by decide⟩,
   C3_unresolvable_accepted (.str "bogus") (.str "seoul") (.str "X100000475")
     (by decide) (by decide) (by decide)⟩

/-- C4 (counterexample): construction is not atomic — a failing run (all
three arguments missing) has already assigned the meal-URL field before the
validation error is thrown. -/
theorem C4_counterexample :
    (School.constructorRun .undef .undef .undef).2 = .error .configurationError ∧
    (School.constructorRun .undef .undef .undef).1.fieldMealUrl = .str DATA.mealUrl ∧
    JSVal.str DATA.mealUrl ≠ .undef :=
  ⟨by decide, by decide, by decide⟩

/-- C4 (amended): a failing construction leaves the four identity fields
(education type, region, school code, initialized flag) unassigned — the
instance is non-finalized — but the five data/collaborator fields (`_DATA`,
`_mealUrl`, `_calendarUrl`, `_meal`, `_calendar`) have already been
assigned before the validation check runs. -/
theorem C4_partial_assignment (t r c : JSVal) (e : JSError)
    (h : (School.constructorRun t r c).2 = .error e) :
    (School.constructorRun t r c).1.fieldEduType = .undef ∧
    (School.constructorRun t r c).1.fieldRegion = .undef ∧
    (School.constructorRun t r c).1.fieldSchoolCode = .undef ∧
    (School.constructorRun t r c).1.fieldInited = .undef ∧
    (School.constructorRun t r c).1.fieldDATA = true ∧
    (School.constructorRun t r c).1.fieldMealUrl = .str DATA.mealUrl ∧
    (School.constructorRun t r c).1.fieldCalendarUrl = .str DATA.calendarUrl ∧
    (School.constructorRun t r c).1.fieldMeal = true ∧
    (School.constructorRun t r c).1.fieldCalendar = true := by
  by_cases hcond : (jsTruthy t ∧ jsTruthy r ∧ jsTruthy c)
  · exfalso
    rw [constructorRun_def, if_pos hcond] at h
    exact Except.noConfusion h
  · rw [constructorRun_def, if_neg hcond]
    exact ⟨rfl, rfl, rfl, rfl, rfl, rfl, rfl, rfl, rfl⟩

/-- C4 (witness): the partial-assignment theorem applies to the concrete
failing construction with all three arguments absent. -/
theorem C4_witness :
    ((School.constructorRun .undef .undef .undef).2 = .error .configurationError) ∧
    ((School.constructorRun .undef .undef .undef).1.fieldEduType = .undef ∧
     (School.constructorRun .undef .undef .undef).1.fieldRegion = .undef ∧
     (School.constructorRun .undef .undef .undef).1.fieldSchoolCode = .undef ∧
     (School.constructorRun .undef .undef .undef).1.fieldInited = .undef ∧
     (School.constructorRun .undef .undef .undef).1.fieldDATA = true ∧
     (School.constructorRun .undef .undef .undef).1.fieldMealUrl = .str DATA.mealUrl ∧
     (School.constructorRun .undef .undef .undef).1.fieldCalendarUrl = .str DATA.calendarUrl ∧
     (School.constructorRun .undef .undef .undef).1.fieldMeal = true ∧
     (School.constructorRun .undef .undef .undef).1.fieldCalendar = true) :=
  ⟨by decide,
   C4_partial_assignment .undef .undef .undef .configurationError (by decide)⟩

/-- Reduction of `createUrl` on an initialized instance to the kind
dispatch. -/
lemma createUrl_cases (st : SchoolObj) (hin : jsTruthy st.fieldInited = true)
    (kind : String) (y m : JSVal) :
    School.createUrl st kind y m =
      (if jsToLowerCase kind = "meal" then
        .ok (School.urlString st (jsToString st.fieldMealUrl) y m)
      else if jsToLowerCase kind = "calendar" then
        .ok (School.urlString st (jsToString st.fieldCalendarUrl) y m)
      else .error .unknownKind) := by
  simp [School.createUrl, hin]

lemma createUrl_ne_notInited (st : SchoolObj) (hin : jsTruthy st.fieldInited = true)
    (kind : String) (y m : JSVal) :
    School.createUrl st kind y m ≠ .error .notInitedErr := by
  rw [createUrl_cases st hin]
  split
  · simp
  · split
    · simp
    · simp

lemma getMeal_positional_ne_notInited (st : SchoolObj)
    (hin : jsTruthy st.fieldInited = true) (y m : JSVal) (hnotobj : isObj y = false) :
    School.getMeal st y m ≠ .error .notInitedErr := by
  rw [getMeal_positional st y m hnotobj]
  by_cases h1 : ¬ ((y ≠ JSVal.undef ∧ m ≠ JSVal.undef) ∨ (y = JSVal.undef ∧ m = JSVal.undef))
  · rw [if_pos h1]
    simp
  · rw [if_neg h1]
    by_cases h2 : (jsLtInt m 1 ∨ jsGtInt m 12)
    · rw [if_pos h2]
      simp
    · rw [if_neg h2]
      simp [hin, createUrl_meal_ok st hin y m, Except.map]

lemma getCalendar_positional_ne_notInited (st : SchoolObj)
    (hin : jsTruthy st.fieldInited = true) (y m : JSVal) (hnotobj : isObj y = false) :
    School.getCalendar st y m ≠ .error .notInitedErr := by
  rw [getCalendar_positional st y m hnotobj]
  by_cases h1 : ¬ ((y ≠ JSVal.undef ∧ m ≠ JSVal.undef) ∨ (y = JSVal.undef ∧ m = JSVal.undef))
  · rw [if_pos h1]
    simp
  · rw [if_neg h1]
    by_cases h2 : (jsLtInt m 1 ∨ jsGtInt m 12)
    · rw [if_pos h2]
      simp
    · rw [if_neg h2]
      simp [hin, createUrl_calendar_ok st hin y m, Except.map]

lemma getMeal_ne_notInited (st : SchoolObj) (hin : jsTruthy st.fieldInited = true)
    (y m : JSVal) :
    School.getMeal st y m ≠ .error .notInitedErr := by
  cases y with
  | obj a b c d =>
    rw [getMeal_options]
    by_cases h1 : (jsLtInt c 1 ∨ jsGtInt c 12)
    · rw [if_pos h1]
      simp
    · rw [if_neg h1]
      simp [hin, createUrl_meal_ok st hin a c, Except.map]
  | undef => exact getMeal_positional_ne_notInited st hin _ m rfl
  | bool b => exact getMeal_positional_ne_notInited st hin _ m rfl
  | num n => exact getMeal_positional_ne_notInited st hin _ m rfl
  | str s => exact getMeal_positional_ne_notInited st hin _ m rfl

lemma getCalendar_ne_notInited (st : SchoolObj) (hin : jsTruthy st.fieldInited = true)
    (y m : JSVal) :
    School.getCalendar st y m ≠ .error .notInitedErr := by
  cases y with
  | obj a b c d =>
    rw [getCalendar_options]
    by_cases h1 : (jsLtInt c 1 ∨ jsGtInt c 12)
    · rw [if_pos h1]
      simp
    · rw [if_neg h1]
      simp [hin, createUrl_calendar_ok st hin b c, Except.map]
  | undef => exact getCalendar_positional_ne_notInited st hin _ m rfl
  | bool b => exact getCalendar_positional_ne_notInited st hin _ m rfl
  | num n => exact getCalendar_positional_ne_notInited st hin _ m rfl
  | str s => exact getCalendar_positional_ne_notInited st hin _ m rfl

lemma getTargetURL_ne_notInited (st : SchoolObj) (hin : jsTruthy st.fieldInited = true)
    (kind : String) (y m : JSVal) :
    School.getTargetURL st kind y m ≠ .error .notInitedErr := by
  simp only [School.getTargetURL]
  by_cases h1 : ¬ ((y ≠ JSVal.undef ∧ m ≠ JSVal.undef) ∨ (y = JSVal.undef ∧ m = JSVal.undef))
  · rw [if_pos h1]
    simp
  · rw [if_neg h1]
    exact createUrl_ne_notInited st hin kind y m

lemma getMeal_positional_not_ok (st : SchoolObj) (h : jsTruthy st.fieldInited = false)
    (y m : JSVal) (hnotobj : isObj y = false) :
    isOkE (School.getMeal st y m) = false := by
  rw [getMeal_positional st y m hnotobj]
  by_cases h1 : ¬ ((y ≠ JSVal.undef ∧ m ≠ JSVal.undef) ∨ (y = JSVal.undef ∧ m = JSVal.undef))
  · rw [if_pos h1]
    rfl
  · rw [if_neg h1]
    by_cases h2 : (jsLtInt m 1 ∨ jsGtInt m 12)
    · rw [if_pos h2]
      rfl
    · rw [if_neg h2]
      simp [h, isOkE]

lemma getCalendar_positional_not_ok (st : SchoolObj) (h : jsTruthy st.fieldInited = false)
    (y m : JSVal) (hnotobj : isObj y = false) :
    isOkE (School.getCalendar st y m) = false := by
  rw [getCalendar_positional st y m hnotobj]
  by_cases h1 : ¬ ((y ≠ JSVal.undef ∧ m ≠ JSVal.undef) ∨ (y = JSVal.undef ∧ m = JSVal.undef))
  · rw [if_pos h1]
    rfl
  · rw [if_neg h1]
    by_cases h2 : (jsLtInt m 1 ∨ jsGtInt m 12)
    · rw [if_pos h2]
      rfl
    · rw [if_neg h2]
      simp [h, isOkE]

lemma getMeal_not_ok (st : SchoolObj) (h : jsTruthy st.fieldInited = false)
    (y m : JSVal) :
    isOkE (School.getMeal st y m) = false := by
  cases y with
  | obj a b c d =>
    rw [getMeal_options]
    by_cases h1 : (jsLtInt c 1 ∨ jsGtInt c 12)
    · rw [if_pos h1]
      rfl
    · rw [if_neg h1]
      simp [h, isOkE]
  | undef => exact getMeal_positional_not_ok st h _ m rfl
  | bool b => exact getMeal_positional_not_ok st h _ m rfl
  | num n => exact getMeal_positional_not_ok st h _ m rfl
  | str s => exact getMeal_positional_not_ok st h _ m rfl

lemma getCalendar_not_ok (st : SchoolObj) (h : jsTruthy st.fieldInited = false)
    (y m : JSVal) :
    isOkE (School.getCalendar st y m) = false := by
  cases y with
  | obj a b c d =>
    rw [getCalendar_options]
    by_cases h1 : (jsLtInt c 1 ∨ jsGtInt c 12)
    · rw [if_pos h1]
      rfl
    · rw [if_neg h1]
      simp [h, isOkE]
  | undef => exact getCalendar_positional_not_ok st h _ m rfl
  | bool b => exact getCalendar_positional_not_ok st h _ m rfl
  | num n => exact getCalendar_positional_not_ok st h _ m rfl
  | str s => exact getCalendar_positional_not_ok st h _ m rfl

lemma getTargetURL_not_ok (st : SchoolObj) (h : jsTruthy st.fieldInited = false)
    (kind : String) (y m : JSVal) :
    isOkE (School.getTargetURL st kind y m) = false := by
  simp only [School.getTargetURL]
  by_cases h1 : ¬ ((y ≠ JSVal.undef ∧ m ≠ JSVal.undef) ∨ (y = JSVal.undef ∧ m = JSVal.undef))
  · rw [if_pos h1]
    rfl
  · rw [if_neg h1]
    simp [School.createUrl, h, isOkE]

lemma getMeal_bare_not_inited (st : SchoolObj) (h : jsTruthy st.fieldInited = false) :
    School.getMeal st .undef .undef = .error .notInitedErr := by
  rw [getMeal_positional st .undef .undef rfl]
  rw [if_neg (by simp)]
  rw [if_neg (by decide : ¬ (jsLtInt JSVal.undef 1 ∨ jsGtInt JSVal.undef 12))]
  simp [h]

lemma getCalendar_bare_not_inited (st : SchoolObj) (h : jsTruthy st.fieldInited = false) :
    School.getCalendar st .undef .undef = .error .notInitedErr := by
  rw [getCalendar_positional st .undef .undef rfl]
  rw [if_neg (by simp)]
  rw [if_neg (by decide : ¬ (jsLtInt JSVal.undef 1 ∨ jsGtInt JSVal.undef 12))]
  simp [h]

lemma getTargetURL_bare_not_inited (st : SchoolObj) (h : jsTruthy st.fieldInited = false)
    (kind : String) :
    School.getTargetURL st kind .undef .undef = .error .notInitedErr := by
  simp only [School.getTargetURL]
  rw [if_neg (by simp)]
  simp [School.createUrl, h]

/-- C6 (counterexample): on a non-finalized instance the positional call
`getMeal(2024)` (month omitted) fails with the incomplete-date error, not
the not-initialized error — the non-finalized state is *not* detected when
the supplied year/month are themselves invalid. -/
theorem C6_counterexample :
    jsTruthy blankSchool.fieldInited = false ∧
    School.getMeal blankSchool (.num 2024) .undef = .error .incompleteDate ∧
    JSError.incompleteDate ≠ JSError.notInitedErr :=
  ⟨by decide, by decide, by decide⟩

/-- C6 (amended): on a non-finalized identity no query ever succeeds —
`createUrl` always fails with the not-initialized error, and `getMeal`,
`getCalendar` and `getTargetURL` fail with the not-initialized error
whenever their date validation passes (e.g. on the bare no-date call), but
date-validation errors (incomplete date, month range) are raised before the
finalization check and thus take precedence. -/
theorem C6_not_inited_behavior (st : SchoolObj) (h : jsTruthy st.fieldInited = false)
    (kind : String) (y m : JSVal) :
    School.createUrl st kind y m = .error .notInitedErr ∧
    isOkE (School.getMeal st y m) = false ∧
    isOkE (School.getCalendar st y m) = false ∧
    isOkE (School.getTargetURL st kind y m) = false ∧
    School.getMeal st .undef .undef = .error .notInitedErr ∧
    School.getCalendar st .undef .undef = .error .notInitedErr ∧
    School.getTargetURL st kind .undef .undef = .error .notInitedErr :=
  ⟨by simp [School.createUrl, h],
   getMeal_not_ok st h y m,
   getCalendar_not_ok st h y m,
   getTargetURL_not_ok st h kind y m,
   getMeal_bare_not_inited st h,
   getCalendar_bare_not_inited st h,
   getTargetURL_bare_not_inited st h kind⟩

/-- C6 (witness): the amended non-finalized theorem applies to the blank
(never-constructed) instance with concrete arguments. -/
theorem C6_witness :
    (jsTruthy blankSchool.fieldInited = false) ∧
    (School.createUrl blankSchool "meal" (.num 2024) (.num 5) = .error .notInitedErr ∧
     isOkE (School.getMeal blankSchool (.num 2024) (.num 5)) = false ∧
     isOkE (School.getCalendar blankSchool (.num 2024) (.num 5)) = false ∧
     isOkE (School.getTargetURL blankSchool "meal" (.num 2024) (.num 5)) = false ∧
     School.getMeal blankSchool .undef .undef = .error .notInitedErr ∧
     School.getCalendar blankSchool .undef .undef = .error .notInitedErr ∧
     School.getTargetURL blankSchool "meal" .undef .undef = .error .notInitedErr) :=
  ⟨by decide,
   C6_not_inited_behavior blankSchool (by decide) "meal" (.num 2024) (.num 5)⟩

/-- C9 (counterexample): an options-object call whose `default` field is the
falsy value `0` does *not* delegate `0` to the fetcher — `option.default || ''`
erases it to the empty string. -/
theorem C9_counterexample :
    School.getMeal demoSchool (.obj (.num 2024) .undef (.num 5) (.num 0)) .undef =
      .ok ⟨"meal", "https://stu.sen.go.kr/sts_sci_md00_001.do?schulCode=X100000475&schulCrseScCode=4&schulKndScCode=04&ay=2024&mm=05&", .str ""⟩ ∧
    (JSVal.str "" : JSVal) ≠ .num 0 :=
  ⟨by decide, by decide⟩

/-- C9 (amended): on a finalized identity, for any year `Y`, month
`1 ≤ M ≤ 12` and *truthy* default `D`, the options-object call
`getMeal({year: Y, month: M, default: D})` builds the same URL as the
positional call `getMeal(Y, M)` and delegates with default `D`, while the
positional call delegates with the empty string; a falsy `D` (e.g. `0`) is
replaced by the empty string. -/
theorem C9_options_default (st : SchoolObj) (hin : jsTruthy st.fieldInited = true)
    (Y M : Int) (hM1 : 1 ≤ M) (hM2 : M ≤ 12) (D : JSVal) (hD : jsTruthy D = true) :
    School.getMeal st (.obj (.num Y) .undef (.num M) D) .undef =
      (School.createUrl st "meal" (.num Y) (.num M)).map (fun u => ⟨"meal", u, D⟩) ∧
    School.getMeal st (.num Y) (.num M) =
      (School.createUrl st "meal" (.num Y) (.num M)).map (fun u => ⟨"meal", u, .str ""⟩) := by
  have hmonth : ¬ (jsLtInt (.num M) 1 ∨ jsGtInt (.num M) 12) := by
    simp only [jsLtInt, jsGtInt, jsToNumber]
    simp
    omega
  constructor
  · rw [getMeal_options, if_neg hmonth]
    simp [hin, jsOr, hD]
  · rw [getMeal_positional st (.num Y) (.num M) rfl]
    rw [if_neg (not_not_intro (Or.inl ⟨by simp, by simp⟩))]
    rw [if_neg hmonth]
    simp [hin]

/-- C9 (witness): the options/positional equivalence theorem applies to the
concrete finalized demo identity with year 2024, month 5 and the truthy
default `"fallback"`. -/
theorem C9_witness :
    (jsTruthy demoSchool.fieldInited = true ∧ (1 : Int) ≤ 5 ∧ (5 : Int) ≤ 12 ∧
     jsTruthy (JSVal.str "fallback") = true) ∧
    (School.getMeal demoSchool (.obj (.num 2024) .undef (.num 5) (.str "fallback")) .undef =
       (School.createUrl demoSchool "meal" (.num 2024) (.num 5)).map
         (fun u => ⟨"meal", u, .str "fallback"⟩) ∧
     School.getMeal demoSchool (.num 2024) (.num 5) =
       (School.createUrl demoSchool "meal" (.num 2024) (.num 5)).map
         (fun u => ⟨"meal", u, .str ""⟩)) :=
  ⟨⟨by decide, by decide, by decide, by decide⟩,
   C9_options_default demoSchool (by decide) 2024 5 (by decide) (by decide)
     (.str "fallback") (by decide)⟩

/-- C10: every successful constructor run yields a finalized instance
(truthy `_initialized`), and on such an instance none of `createUrl`,
`getMeal`, `getCalendar`, `getTargetURL` can fail with the not-initialized
error — that branch is unreachable through the public construction API. -/
theorem C10_constructed_finalized (t r c : JSVal) (st : SchoolObj)
    (h : School.constructorRun t r c = (st, .ok ())) (kind : String) (y m : JSVal) :
    jsTruthy st.fieldInited = true ∧
    School.createUrl st kind y m ≠ .error .notInitedErr ∧
    School.getMeal st y m ≠ .error .notInitedErr ∧
    School.getCalendar st y m ≠ .error .notInitedErr ∧
    School.getTargetURL st kind y m ≠ .error .notInitedErr := by
  have hin : jsTruthy st.fieldInited = true := by
    rw [constructorRun_def] at h
    by_cases hcond : (jsTruthy t ∧ jsTruthy r ∧ jsTruthy c)
    · rw [if_pos hcond] at h
      injection h with h1 h2
      rw [← h1]
      rfl
    · rw [if_neg hcond] at h
      injection h with h1 h2
      exact Except.noConfusion h2
  exact ⟨hin,
    createUrl_ne_notInited st hin kind y m,
    getMeal_ne_notInited st hin y m,
    getCalendar_ne_notInited st hin y m,
    getTargetURL_ne_notInited st hin kind y m⟩

/-- C10 (witness): the finalization theorem applies to the concrete
successful construction that produces the demo identity. -/
theorem C10_witness :
    (School.constructorRun (.str "high") (.str "seoul") (.str "X100000475") =
      (demoSchool, .ok ())) ∧
    (jsTruthy demoSchool.fieldInited = true ∧
     School.createUrl demoSchool "meal" (.num 2024) (.num 5) ≠ .error .notInitedErr ∧
     School.getMeal demoSchool (.num 2024) (.num 5) ≠ .error .notInitedErr ∧
     School.getCalendar demoSchool (.num 2024) (.num 5) ≠ .error .notInitedErr ∧
     School.getTargetURL demoSchool "meal" (.num 2024) (.num 5) ≠ .error .notInitedErr) :=
  ⟨by decide,
   C10_constructed_finalized (.str "high") (.str "seoul") (.str "X100000475") demoSchool
     (by decide) "meal" (.num 2024) (.num 5)⟩
